import Mathlib

/-!
Verification of the selection state machine implemented in
`src/pages/Home.tsx` of the profile-game repository.

The component keeps two pieces of state:
  `selectedCharacterId : number | null`  (the lock, `lockedId` in the spec)
  `grayedOutCards : Set<number>`         (the exclusion set, `excluded` in the spec)
and exposes two event handlers, `handleCharacterSelect` and `handleReset`,
plus the derived value `selectedCharacter = characters[selectedCharacterId]`.
We embed these as pure functions over an explicit state record and prove the
spec properties P1 to P5 and related claims about them.
-/

/-- An entry of the character catalog (`characters.json`): an integer `id`
and an image `path`.  The catalog file itself is external data; its shape
is taken as a hypothesis where a claim needs it. -/
structure Character where
  id : Int
  path : String
deriving DecidableEq

/-- The mutable component state of `Home`: the two `useState` cells
`selectedCharacterId` (initially `null`) and `grayedOutCards`
(initially the empty `Set`).  The JavaScript `Set<number>` is modelled
as a `Finset Int`. -/
structure HomeState where
  selectedCharacterId : Option Int
  grayedOutCards : Finset Int
deriving DecidableEq

/-- The initial state: `useState<number | null>(null)` and
`useState<Set<number>>(new Set())`. -/
def initialState : HomeState :=
  { selectedCharacterId := none, grayedOutCards := ∅ }

/-- Embedding of `handleCharacterSelect` from `Home.tsx`:
if `selectedCharacterId === null`, set it to `id`; otherwise, when
`id !== selectedCharacterId`, toggle membership of `id` in
`grayedOutCards` (delete if present, add if absent); otherwise do
nothing. -/
def handleCharacterSelect (id : Int) (s : HomeState) : HomeState :=
  match s.selectedCharacterId with
  | none => { s with selectedCharacterId := some id }
  | some sel =>
      if id ≠ sel then
        { s with grayedOutCards :=
            if id ∈ s.grayedOutCards then s.grayedOutCards.erase id
            else insert id s.grayedOutCards }
      else s

/-- Embedding of `handleReset` from `Home.tsx`: set
`selectedCharacterId` to `null` and `grayedOutCards` to a fresh empty
set, unconditionally. -/
def handleReset (_s : HomeState) : HomeState :=
  { selectedCharacterId := none, grayedOutCards := ∅ }

/-- JavaScript array indexing with an integer index: `l[i]` is
`undefined` (here `none`) when `i` is negative or at least the
length. -/
def getAtInt (l : List Character) (i : Int) : Option Character :=
  if i < 0 then none else l.get? i.toNat

/-- Embedding of the derived value `selectedCharacter` from `Home.tsx`:
`selectedCharacterId !== null ? characters[selectedCharacterId] : null`. -/
def selectedCharacter (characters : List Character) (s : HomeState) : Option Character :=
  match s.selectedCharacterId with
  | some i => getAtInt characters i
  | none => none

/-- The two events the component reacts to: a click on a character card
(`select id`) and a click on the Reset button (`reset`). -/
inductive Event where
  | select : Int → Event
  | reset : Event

/-- One event-handling step of the component. -/
def step (s : HomeState) : Event → HomeState
  | Event.select id => handleCharacterSelect id s
  | Event.reset => handleReset s

/-- Run a sequence of events from a state, handling each to completion
before the next (the component is single-threaded and synchronous). -/
def run (s : HomeState) (es : List Event) : HomeState :=
  es.foldl step s

/-- A state is reachable when some event sequence produces it from the
initial state. -/
def Reachable (s : HomeState) : Prop :=
  ∃ es : List Event, run initialState es = s

/-- Run a sequence of `select` calls (no intervening reset). -/
def runSelects (s : HomeState) (ids : List Int) : HomeState :=
  ids.foldl (fun t i => handleCharacterSelect i t) s

/-- The full observable state of the page, including the catalog the
component renders from.  The catalog is imported data; the two handlers
only ever write the two `useState` cells. -/
structure FullState where
  characters : List Character
  selectedCharacterId : Option Int
  grayedOutCards : Finset Int
deriving DecidableEq

/-- The selection-state part of a full state. -/
def FullState.core (s : FullState) : HomeState :=
  { selectedCharacterId := s.selectedCharacterId, grayedOutCards := s.grayedOutCards }

/-- `handleCharacterSelect` acting on the full page state: the handler
calls only `setSelectedCharacterId` and `setGrayedOutCards`, so the
catalog component is carried through unchanged. -/
def selectFull (id : Int) (s : FullState) : FullState :=
  let t := handleCharacterSelect id s.core
  { characters := s.characters
    selectedCharacterId := t.selectedCharacterId
    grayedOutCards := t.grayedOutCards }

/-- `handleReset` acting on the full page state. -/
def resetFull (s : FullState) : FullState :=
  let t := handleReset s.core
  { characters := s.characters
    selectedCharacterId := t.selectedCharacterId
    grayedOutCards := t.grayedOutCards }

/-- The invariant maintained by the component: when no lock is set the
exclusion set is empty, and the locked id is never in the exclusion
set. -/
def SelInv (s : HomeState) : Prop :=
  (s.selectedCharacterId = none → s.grayedOutCards = ∅) ∧
  (∀ L : Int, s.selectedCharacterId = some L → L ∉ s.grayedOutCards)

theorem select_open (id : Int) (s : HomeState) (h : s.selectedCharacterId = none) :
    handleCharacterSelect id s = { s with selectedCharacterId := some id } := by
  simp [handleCharacterSelect, h]

theorem select_self (id : Int) (s : HomeState) (h : s.selectedCharacterId = some id) :
    handleCharacterSelect id s = s := by
  simp [handleCharacterSelect, h]

theorem select_other (id sel : Int) (s : HomeState) (h : s.selectedCharacterId = some sel)
    (hne : id ≠ sel) :
    handleCharacterSelect id s =
      { s with grayedOutCards :=
          if id ∈ s.grayedOutCards then s.grayedOutCards.erase id
          else insert id s.grayedOutCards } := by
  simp [handleCharacterSelect, h, hne]

theorem selInv_initial : SelInv initialState := by
  constructor
  · intro _; rfl
  · intro L h; simp [initialState] at h

theorem selInv_step (s : HomeState) (e : Event) (h : SelInv s) : SelInv (step s e) := by
  obtain ⟨h1, h2⟩ := h
  cases e with
  | reset =>
      refine ⟨fun _ => rfl, ?_⟩
      intro L hL
      simp [step, handleReset] at hL
  | select id =>
      cases hsel : s.selectedCharacterId with
      | none =>
          have hg : s.grayedOutCards = ∅ := h1 hsel
          rw [show step s (Event.select id) = handleCharacterSelect id s from rfl,
            select_open id s hsel]
          constructor
          · intro hc; simp at hc
          · intro L _; simp [hg]
      | some sel =>
          by_cases hid : id = sel
          · subst hid
            rw [show step s (Event.select id) = handleCharacterSelect id s from rfl,
              select_self id s hsel]
            exact ⟨h1, h2⟩
          · have hLnot : sel ∉ s.grayedOutCards := h2 sel hsel
            rw [show step s (Event.select id) = handleCharacterSelect id s from rfl,
              select_other id sel s hsel hid]
            constructor
            · intro hc; simp [hsel] at hc
            · intro L hL
              simp only at hL
              rw [hsel] at hL
              obtain rfl : L = sel := by exact (Option.some_inj.mp hL).symm
              simp only
              split
              · intro hmem
                exact hLnot (Finset.mem_of_mem_erase hmem)
              · intro hmem
                rcases Finset.mem_insert.mp hmem with h | h
                · exact hid h.symm
                · exact hLnot h

theorem selInv_run (es : List Event) (s : HomeState) (h : SelInv s) : SelInv (run s es) := by
  induction es generalizing s with
  | nil => exact h
  | cons e es ih => exact ih (step s e) (selInv_step s e h)

theorem reachable_selInv (s : HomeState) (h : Reachable s) : SelInv s := by
  obtain ⟨es, hes⟩ := h
  exact hes ▸ selInv_run es initialState selInv_initial

theorem select_keeps_lock (id L : Int) (s : HomeState)
    (h : s.selectedCharacterId = some L) :
    (handleCharacterSelect id s).selectedCharacterId = some L := by
  by_cases hid : id = L
  · subst hid; rw [select_self id s h]; exact h
  · rw [select_other id L s h hid]; exact h

theorem runSelects_keeps_lock (ids : List Int) (s : HomeState) (L : Int)
    (h : s.selectedCharacterId = some L) :
    (runSelects s ids).selectedCharacterId = some L := by
  induction ids generalizing s with
  | nil => exact h
  | cons i ids ih => exact ih (handleCharacterSelect i s) (select_keeps_lock i L s h)

/-- Claim C1: starting from the initial empty state, for every sequence of
`select` calls with no intervening reset, `lockedId` equals the id passed
to the first `select` call of the sequence and never changes under any
later `select` call (so it never returns to `none` without a reset). -/
theorem spec_C1 (x : Int) (xs : List Int) :
    (runSelects initialState (x :: xs)).selectedCharacterId = some x := by
  have h0 : (handleCharacterSelect x initialState).selectedCharacterId = some x := rfl
  exact runSelects_keeps_lock xs (handleCharacterSelect x initialState) x h0

/-- Claim C2: in every state reachable from the initial empty state via
`select` and `reset`, the locked id is not a member of the excluded set. -/
theorem spec_C2 (s : HomeState) (h : Reachable s) (L : Int)
    (hL : s.selectedCharacterId = some L) : L ∉ s.grayedOutCards :=
  (reachable_selInv s h).2 L hL

theorem spec_C2_witness :
    (run initialState [Event.select 5, Event.select 7]).selectedCharacterId = some 5 ∧
    (5 : Int) ∉ (run initialState [Event.select 5, Event.select 7]).grayedOutCards :=
  ⟨by decide, spec_C2 (run initialState [Event.select 5, Event.select 7])
    ⟨[Event.select 5, Event.select 7], rfl⟩ 5 (by decide)⟩

/-- Claim C3: from every reachable state in the Open phase
(`lockedId = none`) and every id `x`, `select(x)` produces the state with
`lockedId = x` and an empty excluded set. -/
theorem spec_C3 (s : HomeState) (h : Reachable s)
    (hopen : s.selectedCharacterId = none) (x : Int) :
    handleCharacterSelect x s =
      { selectedCharacterId := some x, grayedOutCards := ∅ } := by
  have hg : s.grayedOutCards = ∅ := (reachable_selInv s h).1 hopen
  rw [select_open x s hopen]
  cases s
  simp_all

theorem spec_C3_witness :
    handleCharacterSelect 5 initialState =
      { selectedCharacterId := some 5, grayedOutCards := ∅ } :=
  spec_C3 initialState ⟨[], rfl⟩ rfl 5

/-- Claim C6: `reset()` yields the state `lockedId = none`, `excluded = ∅`
from every state, and is idempotent. -/
theorem spec_C6 (s : HomeState) :
    handleReset s = initialState ∧ handleReset (handleReset s) = handleReset s :=
  ⟨rfl, rfl⟩

/-- Claim C9: in every reachable state, `lockedId = none` implies
`excluded = ∅`: the excluded set can only be non-empty while a lock is
active, even though `select` does not itself clear the excluded set when
setting the lock. -/
theorem spec_C9 (s : HomeState) (h : Reachable s)
    (hnone : s.selectedCharacterId = none) : s.grayedOutCards = ∅ :=
  (reachable_selInv s h).1 hnone

theorem spec_C9_witness :
    (run initialState [Event.select 3, Event.select 4, Event.reset]).selectedCharacterId
        = none ∧
    (run initialState [Event.select 3, Event.select 4, Event.reset]).grayedOutCards = ∅ :=
  ⟨by decide,
    spec_C9 (run initialState [Event.select 3, Event.select 4, Event.reset])
      ⟨[Event.select 3, Event.select 4, Event.reset], rfl⟩ (by decide)⟩

/-- Claim C10: neither `select` nor `reset` modifies the catalog: the
catalog component of the full page state is unchanged by both operations,
and only the `selectedCharacterId` and `grayedOutCards` fields evolve,
exactly as the two handlers dictate. -/
theorem spec_C10 (s : FullState) (id : Int) :
    (selectFull id s).characters = s.characters ∧
    (resetFull s).characters = s.characters ∧
    (selectFull id s).core = handleCharacterSelect id s.core ∧
    (resetFull s).core = handleReset s.core :=
  ⟨rfl, rfl, rfl, rfl⟩

theorem select_toggles (y L : Int) (s : HomeState)
    (hL : s.selectedCharacterId = some L) (hy : y ≠ L) :
    y ∈ (handleCharacterSelect y s).grayedOutCards ↔ y ∉ s.grayedOutCards := by
  rw [select_other y L s hL hy]
  by_cases hmem : y ∈ s.grayedOutCards <;> simp [hmem]

/-- Claim C4: with a lock `L` active and `y ≠ L`, applying `select(y)`
`n` times (no reset in between) leaves the excluded-membership of `y`
unchanged when `n` is even and flips it when `n` is odd; the lock is
unchanged throughout. -/
theorem spec_C4 (s : HomeState) (L y : Int) (n : Nat)
    (hL : s.selectedCharacterId = some L) (hy : y ≠ L) :
    (runSelects s (List.replicate n y)).selectedCharacterId = some L ∧
    (y ∈ (runSelects s (List.replicate n y)).grayedOutCards ↔
      (if Even n then y ∈ s.grayedOutCards else y ∉ s.grayedOutCards)) := by
  induction n generalizing s with
  | zero => exact ⟨hL, by simp [runSelects]⟩
  | succ n ih =>
      have hstep : runSelects s (List.replicate (n + 1) y)
          = runSelects (handleCharacterSelect y s) (List.replicate n y) := rfl
      have hL1 : (handleCharacterSelect y s).selectedCharacterId = some L :=
        select_keeps_lock y L s hL
      obtain ⟨ih1, ih2⟩ := ih (handleCharacterSelect y s) hL1
      refine ⟨hstep ▸ ih1, ?_⟩
      rw [hstep, ih2]
      have ht := select_toggles y L s hL hy
      by_cases he : Even n <;> simp [he, Nat.even_add_one, ht]

theorem spec_C4_witness :
    (runSelects { selectedCharacterId := some 0, grayedOutCards := ∅ }
        (List.replicate 3 7)).selectedCharacterId = some 0 ∧
    ((7 : Int) ∈ (runSelects { selectedCharacterId := some 0, grayedOutCards := ∅ }
        (List.replicate 3 7)).grayedOutCards ↔
      (if Even 3 then (7 : Int) ∈ (∅ : Finset Int) else (7 : Int) ∉ (∅ : Finset Int))) :=
  spec_C4 { selectedCharacterId := some 0, grayedOutCards := ∅ } 0 7 3 rfl (by decide)

/-- Claim C5 counterexample: with id 0 locked (a reachable state), two
successive `select(1)` calls leave the excluded set unchanged while a
single `select(1)` adds 1 to it, so the state after `select(1); select(1)`
differs from the state after a single `select(1)` at this starting state. -/
theorem spec_C5_counterexample :
    handleCharacterSelect 1 (handleCharacterSelect 1 (run initialState [Event.select 0]))
      ≠ handleCharacterSelect 1 (run initialState [Event.select 0]) := by
  decide

/-- Claim C5 (amended): for every id `L` and every starting state in which
either no lock is set or `L` itself is the locked id, the state after
`select(L); select(L)` equals the state after a single `select(L)`; in
particular, when `L` is already the locked id, `select(L)` is a no-op on
both `lockedId` and `excluded`. -/
theorem spec_C5_amended (s : HomeState) (L : Int)
    (h : s.selectedCharacterId = none ∨ s.selectedCharacterId = some L) :
    handleCharacterSelect L (handleCharacterSelect L s) = handleCharacterSelect L s ∧
    (s.selectedCharacterId = some L → handleCharacterSelect L s = s) := by
  rcases h with h | h
  · constructor
    · apply select_self
      rw [select_open L s h]
    · intro hc
      rw [h] at hc
      exact Option.noConfusion hc
  · have hs := select_self L s h
    exact ⟨by rw [hs, hs], fun _ => hs⟩

theorem spec_C5_amended_witness :
    handleCharacterSelect 3 (handleCharacterSelect 3 initialState) =
      handleCharacterSelect 3 initialState :=
  (spec_C5_amended initialState 3 (Or.inl rfl)).1

/-- Claim C7: under the precondition that the catalog entry at position
`i` has `id = i` (0-based, contiguous), `selectedCharacter` returns
`none` when no lock is set, and when position `j` is locked it returns
the catalog item at position `j`, whose id equals the locked id. -/
theorem spec_C7 (characters : List Character)
    (hcat : ∀ (i : Nat) (h : i < characters.length),
      (characters.get ⟨i, h⟩).id = (i : Int))
    (G : Finset Int) (j : Nat) (hj : j < characters.length) :
    selectedCharacter characters { selectedCharacterId := none, grayedOutCards := G }
        = none ∧
    selectedCharacter characters
        { selectedCharacterId := some (j : Int), grayedOutCards := G }
        = some (characters.get ⟨j, hj⟩) ∧
    (characters.get ⟨j, hj⟩).id = (j : Int) := by
  refine ⟨rfl, ?_, hcat j hj⟩
  have h0 : ¬ ((j : Int) < 0) := not_lt.mpr (Int.natCast_nonneg j)
  simp [selectedCharacter, getAtInt, h0, List.get?_eq_get hj]

theorem spec_C7_witness :
    selectedCharacter
        [{ id := 0, path := "a" }, { id := 1, path := "b" }]
        { selectedCharacterId := some 1, grayedOutCards := ∅ }
      = some { id := 1, path := "b" } :=
  (spec_C7 [{ id := 0, path := "a" }, { id := 1, path := "b" }]
      (by decide) ∅ 1 (by decide)).2.1

/-- Claim C8: `select` is a total function over all integer ids and makes
no catalog-membership check: an id absent from the catalog is handled by
the same rules as valid ids, so an out-of-catalog id can become the
locked id (from the Open phase) or be toggled into the excluded set
(while a lock is active). -/
theorem spec_C8 (cs : List Character) (x y L : Int) (G : Finset Int)
    (_hx : x ∉ cs.map Character.id) (_hy : y ∉ cs.map Character.id)
    (hyL : y ≠ L) (hyG : y ∉ G) :
    (handleCharacterSelect x initialState).selectedCharacterId = some x ∧
    (handleCharacterSelect y
        { selectedCharacterId := some L, grayedOutCards := G }).selectedCharacterId
      = some L ∧
    y ∈ (handleCharacterSelect y
        { selectedCharacterId := some L, grayedOutCards := G }).grayedOutCards := by
  refine ⟨rfl, select_keeps_lock y L _ rfl, ?_⟩
  rw [select_other y L _ rfl hyL]
  simp [hyG]

theorem spec_C8_witness :
    (handleCharacterSelect 100 initialState).selectedCharacterId = some 100 ∧
    (handleCharacterSelect (-5)
        { selectedCharacterId := some 0, grayedOutCards := ∅ }).selectedCharacterId
      = some 0 ∧
    (-5 : Int) ∈ (handleCharacterSelect (-5)
        { selectedCharacterId := some 0, grayedOutCards := ∅ }).grayedOutCards :=
  spec_C8 [{ id := 0, path := "a" }] 100 (-5) 0 ∅
    (by decide) (by decide) (by decide) (by decide)
